import Mathlib

/-!
Verification of the sales-analytics dashboard `src/12.py` (functions
`load_and_analyze_data`, `make_forecast`, `generate_recommendations`,
`create_pdf_report`) against its natural-language specification.

Shallow-embedding conventions.

* A transaction row (one row of the uploaded table) is a `RawRow`; the loaded
  row, after `load_and_analyze_data` has appended the derived revenue column
  `Выручка = Объем продаж * Сумма` (line 35), is a `Row`.
* Dates are day numbers (`ℕ`).  `pd.to_datetime` parsing is absorbed into the
  file model (a parse failure is an `Except.error`, as `pd.read_excel` /
  `pd.to_datetime` failures are caught by the same `try`).  `Дата.dt.dayofweek`
  becomes `date % 7`, day numbering chosen so that day 0 is a Monday.
* Numbers are `ℚ` (floats modelled as exact rationals).
* The fitted Holt-Winters model of `make_forecast` (trend='add',
  seasonal='add', seasonal_periods=7, damped_trend=True) is embedded as the
  standard damped additive smoothing recursion; the parameter values chosen by
  `.fit()` (smoothing constants and initial states) are an `HWParams` argument,
  universally quantified in every theorem, since the numeric optimiser is not
  part of the verified surface.
* `generate_recommendations` builds formatted Russian strings; the embedding
  keeps the data each string interpolates (a `Recommendation` value) and
  abstracts the surrounding fixed text.  `st.warning` calls are collected in a
  second component, the list of warnings surfaced to the user.
* pandas `Series.std` is sample standard deviation (ddof = 1).  The strict
  comparison `std > m` is encoded without square roots as
  `m < 0 ∨ m ^ 2 < var`, which is equivalent because `std = √var ≥ 0`.
* `corr` of pandas (check 6) needs a square root, which `ℚ` lacks; its numeric
  value is an oracle argument `corrVal`, but the cases where pandas yields NaN
  (fewer than two points, or a zero-variance argument) are embedded exactly,
  because only they decide the control flow the claims mention.
* The calendar-month key of `pd.Grouper(freq='M')` (check 5) is an abstract
  monotone key function `monthOf`, universally quantified.
* Two syntactic slips in the source (a parenthesis missing before `elif` at
  line 203 and an unbalanced brace in the f-string at line 216) affect only
  the literal message text; the values those messages interpolate are computed
  on well-formed lines (199, 213-214) and are embedded from them.
-/

/-- Mean of a list of rationals (pandas `.mean()`).  For the empty list the
`ℚ` convention `x / 0 = 0` applies where pandas would give NaN; every call
site guards emptiness exactly as the source does. -/
def listMean (l : List ℚ) : ℚ := l.sum / l.length

/-- Sample variance with ddof = 1, the square of pandas `.std()`. -/
def sampleVar (l : List ℚ) : ℚ :=
  (l.map (fun x => (x - listMean l) ^ 2)).sum / ((l.length : ℚ) - 1)

/-- `stdGtB v m` decides `√v > m` for `v ≥ 0` without a square root:
`√v > m ↔ m < 0 ∨ m² < v`. -/
def stdGtB (v m : ℚ) : Bool := decide (m < 0) || decide (m ^ 2 < v)

/-- One row of the uploaded spreadsheet: columns `Дата`, `Объем продаж`,
`Вид продукта`, `Местоположение`, `Сумма`, `Тип покупателя`. -/
structure RawRow where
  date : ℕ
  volume : ℚ
  product : String
  location : String
  price : ℚ
  customer : String
deriving DecidableEq, Repr

/-- A loaded row: a `RawRow` plus the derived column `Выручка` appended by
`load_and_analyze_data` (line 35). -/
structure Row extends RawRow where
  revenue : ℚ
deriving DecidableEq, Repr

/-- The parsed spreadsheet: its column-name list and its rows. -/
structure RawTable where
  columns : List String
  rows : List RawRow

/-- Required columns checked at line 28. -/
def requiredColumns : List String :=
  ["Дата", "Объем продаж", "Вид продукта", "Местоположение", "Сумма", "Тип покупателя"]

/-- Line 35: `df['Выручка'] = df['Объем продаж'] * df['Сумма']`. -/
def addRevenue (r : RawRow) : Row := { toRawRow := r, revenue := r.volume * r.price }

/-- `load_and_analyze_data` (lines 24-40).  The argument is the outcome of
`pd.read_excel` / `pd.to_datetime`: a parse failure lands in the generic
`except` branch (line 40). -/
def loadAndAnalyzeData (file : Except String RawTable) :
    Option String × Option (List Row) :=
  match file with
  | .error e => (some ("Ошибка загрузки: " ++ e), none)
  | .ok t =>
    let missing := requiredColumns.filter (fun c => decide (c ∉ t.columns))
    if missing.isEmpty then
      (none, some (t.rows.map addRevenue))
    else
      (some ("Отсутствуют колонки: " ++ String.intercalate ", " missing), none)

/-- Total volume of the rows dated `d`, i.e. the entry pattern of
`df.groupby('Дата')...'sum'`. -/
def sumVolOn (df : List Row) (d : ℕ) : ℚ :=
  ((df.filter (fun r => decide (r.date = d))).map (fun r => r.volume)).sum

/-- The distinct dates of the table in ascending order: the index produced by
`df.groupby('Дата')` (pandas sorts group keys). -/
def observedDates (df : List Row) : List ℕ :=
  List.insertionSort (· ≤ ·) (df.map (fun r => r.date)).dedup

/-- Line 45: `df.groupby('Дата').agg({'Объем продаж': 'sum'})`. -/
def groupSumByDate (df : List Row) : List (ℕ × ℚ) :=
  (observedDates df).map (fun d => (d, sumVolOn df d))

/-- Line 46: `.asfreq('D').fillna(0)` — reindex to every calendar day from the
minimum to the maximum index entry, filling the new days with 0. -/
def asfreqD (g : List (ℕ × ℚ)) : List (ℕ × ℚ) :=
  match (g.map Prod.fst).min?, (g.map Prod.fst).max? with
  | some lo, some hi =>
    (List.range (hi + 1 - lo)).map (fun i => (lo + i, (List.lookup (lo + i) g).getD 0))
  | _, _ => []

/-- The daily aggregate series of `make_forecast` (lines 45-46). -/
def dailyAggregate (df : List Row) : List (ℕ × ℚ) := asfreqD (groupSumByDate df)

/-- Minimum observed date (0 for the empty table). -/
def minDate (df : List Row) : ℕ := ((df.map (fun r => r.date)).min?).getD 0

/-- Maximum observed date (0 for the empty table). -/
def maxDate (df : List Row) : ℕ := ((df.map (fun r => r.date)).max?).getD 0

/-- Parameter values of the fitted `ExponentialSmoothing` model: smoothing
constants, damping, and initial level / trend / seasonal states. -/
structure HWParams where
  alpha : ℚ
  beta : ℚ
  gamma : ℚ
  phi : ℚ
  l0 : ℚ
  b0 : ℚ
  s0 : List ℚ

/-- One smoothing update of the damped additive Holt-Winters recursion
(trend='add', seasonal='add', damped_trend=True, seasonal_periods=7).
State is (level, trend, next seasonal states front-first). -/
def hwStep (p : HWParams) (st : ℚ × ℚ × List ℚ) (x : ℚ) : ℚ × ℚ × List ℚ :=
  let sOld := st.2.2.headD 0
  let lNew := p.alpha * (x - sOld) + (1 - p.alpha) * (st.1 + p.phi * st.2.1)
  let bNew := p.beta * (lNew - st.1) + (1 - p.beta) * p.phi * st.2.1
  let sNew := p.gamma * (x - st.1 - p.phi * st.2.1) + (1 - p.gamma) * sOld
  (lNew, bNew, st.2.2.tail ++ [sNew])

/-- Damped trend multiplier `φ + φ² + ⋯ + φᵏ`. -/
def hwDampSum (phi : ℚ) (k : ℕ) : ℚ := ((List.range k).map (fun i => phi ^ (i + 1))).sum

/-- `model.forecast(h)`: run the smoothing recursion over the data, then emit
the `h`-step-ahead point forecasts. -/
def hwForecast (p : HWParams) (xs : List ℚ) (h : ℕ) : List ℚ :=
  let st := xs.foldl (hwStep p) (p.l0, p.b0, p.s0)
  (List.range h).map (fun k => st.1 + hwDampSum p.phi (k + 1) * st.2.1 + st.2.2.getD (k % 7) 0)

/-- `make_forecast` (lines 43-80).  Returns either the combined
actual-plus-forecast series of `(date, volume, Тип)` points (`'Факт'` for
history, `'Прогноз'` for the horizon) or the error message of the source.
The pure embedding cannot raise, so the `except` branch (lines 79-80) is
unreachable. -/
def makeForecast (p : HWParams) (df : List Row) (periods : ℕ) :
    Except String (List (ℕ × ℚ × String)) :=
  let daily := dailyAggregate df
  if daily.length < 30 then
    .error "Для прогноза требуется минимум 30 дней данных"
  else
    let fc := hwForecast p (daily.map (fun q => q.2)) periods
    let lastDate := (daily.map Prod.fst).getLastD 0
    let futureDates := (List.range periods).map (fun i => lastDate + 1 + i)
    let forecastRows := (futureDates.zip fc).map (fun q => (q.1, q.2, "Прогноз"))
    let actualRows := daily.map (fun q => (q.1, q.2, "Факт"))
    .ok (actualRows ++ forecastRows)

/-- Classic additive `seasonal_decompose(x, period=7)` of statsmodels: centred
7-point moving-average trend (defined on indices `3 ≤ t < n - 3`), per-phase
means of the detrended interior, centring of the seven phase averages, and
tiling over the whole length.  Raises (here: `Except.error`) when the series
is shorter than two full periods. -/
def seasonalDecompose7 (xs : List ℚ) : Except String (List ℚ) :=
  let n := xs.length
  if n < 14 then
    .error "x must have 2 complete cycles requires 14 observations"
  else
    let x := fun t => xs.getD t 0
    let detr := fun t => x t - ((List.range 7).map (fun j => x (t - 3 + j))).sum / 7
    let interior := (List.range n).filter (fun t => decide (3 ≤ t) && decide (t + 3 < n))
    let avgs := (List.range 7).map
      (fun i => listMean ((interior.filter (fun t => decide (t % 7 = i))).map detr))
    let centered := avgs.map (fun a => a - listMean avgs)
    .ok ((List.range n).map (fun t => centered.getD (t % 7) 0))

/-- One recommendation, reduced to the data its formatted text interpolates.
Constructors follow the seven numbered checks of `generate_recommendations`
plus the fallback message of lines 220-222. -/
inductive Recommendation where
  | seasonality (best worst : ℕ)
  | topProducts (top : List (String × ℚ × ℚ × ℚ)) (bottom : List (String × ℚ))
  | customers (best worst : String)
  | locations (best worst : String)
  | dynamics (lastG avgG : ℚ)
  | elastic (e : ℚ)
  | premium (e : ℚ)
  | lostRevenue (days : ℕ) (loss : ℚ)
  | fallback
deriving DecidableEq, Repr

/-- First element attaining the maximum of `f` (`idxmax` / the first row of a
descending sort; ties keep the earlier element). -/
def argmaxBy {α : Type} (f : α → ℚ) : List α → Option α
  | [] => none
  | x :: xs => some (xs.foldl (fun b y => if f b < f y then y else b) x)

/-- First element attaining the minimum of `f` (`idxmin`). -/
def argminBy {α : Type} (f : α → ℚ) : List α → Option α
  | [] => none
  | x :: xs => some (xs.foldl (fun b y => if f y < f b then y else b) x)

/-- Values of the series `df.groupby('Дата')['Объем продаж'].sum()` of
check 1 (line 89) — observed dates only, no gap filling. -/
def dailyVals (df : List Row) : List ℚ := (observedDates df).map (sumVolOn df)

/-- Total volume on weekday `k` (`df.groupby(df['Дата'].dt.dayofweek)`...). -/
def weekdayVol (df : List Row) (k : ℕ) : ℚ :=
  ((df.filter (fun r => decide (r.date % 7 = k))).map (fun r => r.volume)).sum

/-- Weekday keys present in the table, ascending (pandas group keys). -/
def weekdayKeys (df : List Row) : List ℕ :=
  List.insertionSort (· ≤ ·) (df.map (fun r => r.date % 7)).dedup

/-- `weekday_sales.idxmax()` of line 95. -/
def bestWeekday (df : List Row) : ℕ := (argmaxBy (weekdayVol df) (weekdayKeys df)).getD 0

/-- `weekday_sales.idxmin()` of line 96. -/
def worstWeekday (df : List Row) : ℕ := (argminBy (weekdayVol df) (weekdayKeys df)).getD 0

/-- Check 1, seasonality (lines 88-106): decompose the daily series with
period 7; if the sample standard deviation of the seasonal component exceeds
`mean * 0.1`, emit the best/worst weekday observation.  A decomposition
failure is caught and surfaced through `st.warning` (line 106) — the second
component collects those warnings. -/
def seasonCheck (df : List Row) : List Recommendation × List String :=
  match seasonalDecompose7 (dailyVals df) with
  | .error e => ([], ["Ошибка анализа сезонности: " ++ e])
  | .ok seas =>
    if stdGtB (sampleVar seas) (listMean (dailyVals df) * (1 / 10)) then
      ([.seasonality (bestWeekday df) (worstWeekday df)], [])
    else
      ([], [])

/-- Distinct product labels in first-occurrence order.  (pandas sorts group
keys; since every later use re-sorts by a numeric key or aggregates
order-insensitively, the key order is observable only through ties, which the
source leaves to an unstable quicksort anyway.) -/
def productKeys (df : List Row) : List String := (df.map (fun r => r.product)).dedup

/-- Rows of a given product. -/
def rowsOfProduct (df : List Row) (p : String) : List Row :=
  df.filter (fun r => decide (r.product = p))

/-- One row of `product_analysis` (lines 109-113): product, volume sum,
revenue sum, mean price. -/
def productStat (df : List Row) (p : String) : String × ℚ × ℚ × ℚ :=
  ((p, ((rowsOfProduct df p).map (fun r => r.volume)).sum,
    ((rowsOfProduct df p).map (fun r => r.revenue)).sum,
    listMean ((rowsOfProduct df p).map (fun r => r.price))))

/-- `sort_values('Выручка', ascending=False)`: revenue-descending order on
product statistics. -/
def revDescRel (a b : String × ℚ × ℚ × ℚ) : Prop := b.2.2.1 ≤ a.2.2.1

instance : DecidableRel revDescRel := fun _ _ => inferInstanceAs (Decidable (_ ≤ _))

instance : IsTrans (String × ℚ × ℚ × ℚ) revDescRel :=
  ⟨fun _ _ _ h1 h2 => le_trans h2 h1⟩

instance : IsTotal (String × ℚ × ℚ × ℚ) revDescRel :=
  ⟨fun a b => le_total b.2.2.1 a.2.2.1⟩

/-- `product_analysis` (lines 109-113): per-product aggregates sorted by
revenue, descending. -/
def productAnalysis (df : List Row) : List (String × ℚ × ℚ × ℚ) :=
  List.insertionSort revDescRel ((productKeys df).map (productStat df))

/-- `product_analysis.head(3)` (line 117). -/
def topProducts3 (df : List Row) : List (String × ℚ × ℚ × ℚ) :=
  (productAnalysis df).take 3

/-- The product names of the emitted top-3 ranking. -/
def topProductNames (df : List Row) : List String :=
  (topProducts3 df).map (fun x => x.1)

/-- Check 2, products (lines 109-133): when at least one product exists, emit
the top-3 (by revenue) and the bottom-3 (`tail(3)`). -/
def productCheck (df : List Row) : List Recommendation :=
  let pa := productAnalysis df
  if pa.isEmpty then []
  else
    [.topProducts (pa.take 3)
      ((pa.drop (pa.length - 3)).map (fun x => (x.1, x.2.1)))]

/-- Distinct customer-type labels in first-occurrence order. -/
def customerKeys (df : List Row) : List String := (df.map (fun r => r.customer)).dedup

/-- Revenue total of one customer type. -/
def customerRev (df : List Row) (c : String) : ℚ :=
  ((df.filter (fun r => decide (r.customer = c))).map (fun r => r.revenue)).sum

/-- Check 3, customers (lines 136-153): with more than one customer type,
name the highest- and lowest-revenue types. -/
def customerCheck (df : List Row) : List Recommendation :=
  if 1 < (customerKeys df).length then
    [.customers ((argmaxBy (customerRev df) (customerKeys df)).getD "")
      ((argminBy (customerRev df) (customerKeys df)).getD "")]
  else []

/-- Distinct locations in first-occurrence order. -/
def locationKeys (df : List Row) : List String := (df.map (fun r => r.location)).dedup

/-- Revenue total of one location. -/
def locationRev (df : List Row) (l : String) : ℚ :=
  ((df.filter (fun r => decide (r.location = l))).map (fun r => r.revenue)).sum

/-- Check 4, locations (lines 156-172): with more than one location, name the
highest- and lowest-revenue locations. -/
def locationCheck (df : List Row) : List Recommendation :=
  if 1 < (locationKeys df).length then
    [.locations ((argmaxBy (locationRev df) (locationKeys df)).getD "")
      ((argminBy (locationRev df) (locationKeys df)).getD "")]
  else []

/-- Monthly revenue sums of `df.groupby(pd.Grouper(key='Дата', freq='M'))`
for an abstract month-key function: every month bin from the earliest to the
latest observed key, in order (empty bins sum to 0, as resampling yields). -/
def monthlyRevenue (monthOf : ℕ → ℕ) (df : List Row) : List ℚ :=
  match (df.map (fun r => monthOf r.date)).min?, (df.map (fun r => monthOf r.date)).max? with
  | some lo, some hi =>
    (List.range (hi + 1 - lo)).map
      (fun i => ((df.filter (fun r => decide (monthOf r.date = lo + i))).map
        (fun r => r.revenue)).sum)
  | _, _ => []

/-- Check 5, dynamics (lines 175-191): month-over-month percentage changes
(`pct_change`), emitting the last and the mean change when more than one
month exists.  The surrounding `try/except: pass` cannot fire in the pure
embedding (pandas division of a change by a zero month follows the `ℚ`
convention `x / 0 = 0` here). -/
def dynamicsCheck (monthOf : ℕ → ℕ) (df : List Row) : List Recommendation :=
  let monthly := monthlyRevenue monthOf df
  if 1 < monthly.length then
    let changes := (List.range (monthly.length - 1)).map
      (fun i => monthly.getD (i + 1) 0 / monthly.getD i 0 - 1)
    [.dynamics (changes.getLastD 0) (listMean changes)]
  else []

/-- pandas `x.corr(y)` NaN structure: NaN exactly when fewer than two points
or one argument has zero variance; otherwise the numeric value is taken from
the oracle `corrVal` (its exact value needs square roots). -/
def corrGuard (corrVal : List (ℚ × ℚ) → ℚ) (pts : List (ℚ × ℚ)) : Option ℚ :=
  if pts.length < 2 then none
  else if sampleVar (pts.map Prod.fst) = 0 ∨ sampleVar (pts.map Prod.snd) = 0 then none
  else some (corrVal pts)

/-- Check 6, price elasticity (lines 194-208): mean over products of
`corr(Объем продаж, Сумма)` (pandas mean skips NaN entries; an all-NaN mean
is NaN and both comparisons fail).  Emits the elastic observation below
-0.3, the premium observation above 0.1.  The parenthesis missing before
`elif` on line 203 breaks only the message literal; the branch structure is
taken as written on lines 199 and 203. -/
def elasticityCheck (corrVal : List (ℚ × ℚ) → ℚ) (df : List Row) : List Recommendation :=
  let corrs := (productKeys df).filterMap
    (fun p => corrGuard corrVal ((rowsOfProduct df p).map (fun r => (r.volume, r.price))))
  if corrs.isEmpty then []
  else
    let e := listMean corrs
    if e < -(3 / 10) then [.elastic e]
    else if (1 / 10) < e then [.premium e]
    else []

/-- Check 7, lost revenue (lines 211-218): when rows with zero volume exist,
report the number of their distinct dates and estimate the loss as that count
times the table-wide mean volume times the table-wide mean price (lines
213-214; the unbalanced f-string brace on line 216 affects only the message
text). -/
def lostRevenueCheck (df : List Row) : List Recommendation :=
  let zs := df.filter (fun r => decide (r.volume = 0))
  if zs.isEmpty then []
  else
    let nd := ((zs.map (fun r => r.date)).dedup).length
    [.lostRevenue nd ((nd : ℚ) * listMean (df.map (fun r => r.volume))
      * listMean (df.map (fun r => r.price)))]

/-- `generate_recommendations` (lines 83-222): the seven checks in source
order, the fallback message when none produced output (lines 220-222), and
the warnings surfaced by `st.warning`. -/
def generateRecommendations (monthOf : ℕ → ℕ) (corrVal : List (ℚ × ℚ) → ℚ)
    (df : List Row) : List Recommendation × List String :=
  let c1 := seasonCheck df
  let recs := c1.1 ++ productCheck df ++ customerCheck df ++ locationCheck df
    ++ dynamicsCheck monthOf df ++ elasticityCheck corrVal df ++ lostRevenueCheck df
  (if recs.isEmpty then [.fallback] else recs, c1.2)

/-- KPI block of `create_pdf_report` (lines 240-243): total volume, total
revenue, mean price, distinct product count. -/
def pdfKpis (df : List Row) : ℚ × ℚ × ℚ × ℕ :=
  ((df.map (fun r => r.volume)).sum,
   (df.map (fun r => r.revenue)).sum,
   listMean (df.map (fun r => r.price)),
   (df.map (fun r => r.product)).dedup.length)

/-- Total sales volume of one product (the `Объем продаж` aggregate of
`product_analysis`). -/
def productVolume (df : List Row) (p : String) : ℚ :=
  ((rowsOfProduct df p).map (fun r => r.volume)).sum

/-- `len(zero_sales_days['Дата'].unique())` of lines 214/216. -/
def zeroSalesDays (df : List Row) : ℕ :=
  (((df.filter (fun r => decide (r.volume = 0))).map (fun r => r.date)).dedup).length

/-- The seasonal component when the decomposition succeeds (else `[]`). -/
def seasonalOf (df : List Row) : List ℚ :=
  ((seasonalDecompose7 (dailyVals df)).toOption).getD []

/-- The emission condition of check 1 (line 92):
`decomposition.seasonal.std() > daily_sales.mean() * 0.1`. -/
def seasonalStrongB (df : List Row) : Bool :=
  stdGtB (sampleVar (seasonalOf df)) (listMean (dailyVals df) * (1 / 10))

/-- A loaded row as `load_and_analyze_data` produces it (revenue =
volume × price). -/
def mkRow (d : ℕ) (v : ℚ) (p l : String) (pr : ℚ) (c : String) : Row :=
  { date := d, volume := v, product := p, location := l, price := pr,
    customer := c, revenue := v * pr }

/-- A concrete calendar-month key (30-day months) used to instantiate the
abstract `monthOf` parameter in witnesses. -/
def monthByThirty (d : ℕ) : ℕ := d / 30

/-- A concrete correlation oracle used to instantiate `corrVal` in
witnesses. -/
def corrZero (_ : List (ℚ × ℚ)) : ℚ := 0

/-- Concrete fitted parameters used to instantiate `HWParams` in
witnesses. -/
def hwHalf : HWParams :=
  { alpha := 1 / 2, beta := 1 / 2, gamma := 1 / 2, phi := 1 / 2,
    l0 := 0, b0 := 0, s0 := List.replicate 7 0 }

/-- One-row table (one day of history). -/
def exC1 : List Row := [mkRow 0 5 "P" "L" 2 "B"]

/-- Thirty consecutive days of history. -/
def exC2 : List Row := (List.range 30).map (fun d => mkRow d 1 "P" "L" 1 "B")

/-- Two transactions with a calendar gap between them (days 0 and 2). -/
def exC3 : List Row := [mkRow 0 5 "P" "L" 2 "B", mkRow 2 7 "P" "L" 2 "B"]

/-- Three products with volumes A:100, B:50, C:200 whose prices make the
revenue order differ from the volume order. -/
def exC4 : List Row :=
  [mkRow 0 100 "A" "L" 10 "B", mkRow 0 50 "B" "L" 100 "B", mkRow 0 200 "C" "L" 1 "B"]

/-- Three products with volumes A:100, B:50, C:200 at equal unit prices. -/
def exC4eq : List Row :=
  [mkRow 0 100 "A" "L" 1 "B", mkRow 0 50 "B" "L" 1 "B", mkRow 0 200 "C" "L" 1 "B"]

/-- Four products at equal unit prices (volumes 100, 50, 200, 1). -/
def exC4w : List Row :=
  [mkRow 0 100 "A" "L" 1 "B", mkRow 0 50 "B" "L" 1 "B", mkRow 0 200 "C" "L" 1 "B",
   mkRow 0 1 "D" "L" 1 "B"]

/-- Two days of history — too short for the period-7 decomposition. -/
def exC5 : List Row := [mkRow 0 5 "P" "L" 2 "B", mkRow 1 6 "P" "L" 2 "B"]

/-- A single-row table. -/
def exC6 : List Row := [mkRow 0 5 "P" "L" 2 "B"]

/-- Fourteen days of constant volume 50 — no weekly variation. -/
def exC8const : List Row :=
  [mkRow 0 50 "P" "L" 1 "B", mkRow 1 50 "P" "L" 1 "B", mkRow 2 50 "P" "L" 1 "B",
   mkRow 3 50 "P" "L" 1 "B", mkRow 4 50 "P" "L" 1 "B", mkRow 5 50 "P" "L" 1 "B",
   mkRow 6 50 "P" "L" 1 "B", mkRow 7 50 "P" "L" 1 "B", mkRow 8 50 "P" "L" 1 "B",
   mkRow 9 50 "P" "L" 1 "B", mkRow 10 50 "P" "L" 1 "B", mkRow 11 50 "P" "L" 1 "B",
   mkRow 12 50 "P" "L" 1 "B", mkRow 13 50 "P" "L" 1 "B"]

/-- Fourteen days with a strong weekday/weekend pattern (weekend volumes
100/90 against weekday volumes 10-14). -/
def exC8alt : List Row :=
  [mkRow 0 10 "P" "L" 1 "B", mkRow 1 11 "P" "L" 1 "B", mkRow 2 12 "P" "L" 1 "B",
   mkRow 3 13 "P" "L" 1 "B", mkRow 4 14 "P" "L" 1 "B", mkRow 5 100 "P" "L" 1 "B",
   mkRow 6 90 "P" "L" 1 "B", mkRow 7 10 "P" "L" 1 "B", mkRow 8 11 "P" "L" 1 "B",
   mkRow 9 12 "P" "L" 1 "B", mkRow 10 13 "P" "L" 1 "B", mkRow 11 14 "P" "L" 1 "B",
   mkRow 12 100 "P" "L" 1 "B", mkRow 13 90 "P" "L" 1 "B"]

/-- A well-formed uploaded file with all required columns and one row. -/
def exGoodTable : RawTable :=
  { columns := requiredColumns,
    rows := [{ date := 0, volume := 2, product := "P", location := "L",
               price := 3, customer := "B" }] }

/-- The loaded table obtained from `exGoodTable`. -/
def exGoodDf : List Row := exGoodTable.rows.map addRevenue

/-- An uploaded file missing five of the six required columns. -/
def exBadTable : RawTable := { columns := ["Дата"], rows := [] }

/-- A table containing a zero-volume row. -/
def exC10 : List Row := [mkRow 0 0 "P" "L" 7 "B", mkRow 1 4 "P" "L" 7 "B"]

theorem mem_observedDates {df : List Row} {d : ℕ} :
    d ∈ observedDates df ↔ ∃ r ∈ df, r.date = d := by
  simp [observedDates, List.mem_insertionSort, List.mem_dedup, List.mem_map]

theorem observedDates_eq_nil_iff {df : List Row} : observedDates df = [] ↔ df = [] := by
  constructor
  · intro h
    cases df with
    | nil => rfl
    | cons r l =>
      have : r.date ∈ observedDates (r :: l) := mem_observedDates.mpr ⟨r, by simp⟩
      rw [h] at this
      exact absurd this (List.not_mem_nil _)
  · intro h
    subst h
    rfl

theorem min?_congr_of_mem_iff {l1 l2 : List ℕ} (h : ∀ a, a ∈ l1 ↔ a ∈ l2) :
    l1.min? = l2.min? := by
  cases h1 : l1.min? with
  | none =>
    rw [List.min?_eq_none_iff] at h1
    subst h1
    symm
    rw [List.min?_eq_none_iff]
    cases l2 with
    | nil => rfl
    | cons x xs => exact absurd ((h x).mpr (by simp)) (List.not_mem_nil _)
  | some a =>
    obtain ⟨hm, hb⟩ := List.min?_eq_some_iff'.mp h1
    symm
    rw [List.min?_eq_some_iff']
    exact ⟨(h a).mp hm, fun b hb2 => hb b ((h b).mpr hb2)⟩

theorem max?_congr_of_mem_iff {l1 l2 : List ℕ} (h : ∀ a, a ∈ l1 ↔ a ∈ l2) :
    l1.max? = l2.max? := by
  cases h1 : l1.max? with
  | none =>
    rw [List.max?_eq_none_iff] at h1
    subst h1
    symm
    rw [List.max?_eq_none_iff]
    cases l2 with
    | nil => rfl
    | cons x xs => exact absurd ((h x).mpr (by simp)) (List.not_mem_nil _)
  | some a =>
    obtain ⟨hm, hb⟩ := List.max?_eq_some_iff'.mp h1
    symm
    rw [List.max?_eq_some_iff']
    exact ⟨(h a).mp hm, fun b hb2 => hb b ((h b).mpr hb2)⟩

theorem observedDates_min? (df : List Row) :
    (observedDates df).min? = (df.map (fun r => r.date)).min? :=
  min?_congr_of_mem_iff (fun a => by
    rw [mem_observedDates]
    simp [List.mem_map])

theorem observedDates_max? (df : List Row) :
    (observedDates df).max? = (df.map (fun r => r.date)).max? :=
  max?_congr_of_mem_iff (fun a => by
    rw [mem_observedDates]
    simp [List.mem_map])

theorem minDate_spec {df : List Row} (h : df ≠ []) :
    (∃ r ∈ df, r.date = minDate df) ∧ ∀ r ∈ df, minDate df ≤ r.date := by
  cases hm : (df.map (fun r => r.date)).min? with
  | none =>
    rw [List.min?_eq_none_iff, List.map_eq_nil_iff] at hm
    exact absurd hm h
  | some a =>
    obtain ⟨hmem, hb⟩ := List.min?_eq_some_iff'.mp hm
    have ha : minDate df = a := by simp [minDate, hm]
    rw [ha]
    obtain ⟨r, hr, hrd⟩ := List.mem_map.mp hmem
    exact ⟨⟨r, hr, hrd⟩, fun r hr => hb _ (List.mem_map.mpr ⟨r, hr, rfl⟩)⟩

theorem maxDate_spec {df : List Row} (h : df ≠ []) :
    (∃ r ∈ df, r.date = maxDate df) ∧ ∀ r ∈ df, r.date ≤ maxDate df := by
  cases hm : (df.map (fun r => r.date)).max? with
  | none =>
    rw [List.max?_eq_none_iff, List.map_eq_nil_iff] at hm
    exact absurd hm h
  | some a =>
    obtain ⟨hmem, hb⟩ := List.max?_eq_some_iff'.mp hm
    have ha : maxDate df = a := by simp [maxDate, hm]
    rw [ha]
    obtain ⟨r, hr, hrd⟩ := List.mem_map.mp hmem
    exact ⟨⟨r, hr, hrd⟩, fun r hr => hb _ (List.mem_map.mpr ⟨r, hr, rfl⟩)⟩

theorem minDate_le_maxDate {df : List Row} (h : df ≠ []) : minDate df ≤ maxDate df := by
  obtain ⟨⟨r, hr, hrd⟩, _⟩ := minDate_spec h
  exact hrd ▸ (maxDate_spec h).2 r hr

theorem sumVolOn_eq_zero {df : List Row} {d : ℕ} (h : ∀ r ∈ df, r.date ≠ d) :
    sumVolOn df d = 0 := by
  have : df.filter (fun r => decide (r.date = d)) = [] :=
    List.filter_eq_nil_iff.mpr (fun r hr => by simp [h r hr])
  simp [sumVolOn, this]

theorem lookup_graph (f : ℕ → ℚ) (dates : List ℕ) (d : ℕ) :
    List.lookup d (dates.map (fun x => (x, f x)))
      = if d ∈ dates then some (f d) else none := by
  induction dates with
  | nil => simp [List.lookup]
  | cons a l ih =>
    by_cases hd : d = a
    · subst hd
      simp [List.lookup]
    · simp [List.lookup, beq_false_of_ne hd, ih, hd]

theorem groupSumByDate_fst (df : List Row) :
    (groupSumByDate df).map Prod.fst = observedDates df := by
  rw [groupSumByDate, List.map_map]
  exact (List.map_congr_left (fun a _ => rfl)).trans (List.map_id _)

theorem dailyAggregate_nil : dailyAggregate [] = [] := rfl

theorem dailyAggregate_eq {df : List Row} (h : df ≠ []) :
    dailyAggregate df = (List.range (maxDate df + 1 - minDate df)).map
      (fun i => (minDate df + i, sumVolOn df (minDate df + i))) := by
  have hmin : ((groupSumByDate df).map Prod.fst).min? = some (minDate df) := by
    rw [groupSumByDate_fst, observedDates_min?]
    cases hm : (df.map (fun r => r.date)).min? with
    | none =>
      rw [List.min?_eq_none_iff, List.map_eq_nil_iff] at hm
      exact absurd hm h
    | some a => simp [minDate, hm]
  have hmax : ((groupSumByDate df).map Prod.fst).max? = some (maxDate df) := by
    rw [groupSumByDate_fst, observedDates_max?]
    cases hm : (df.map (fun r => r.date)).max? with
    | none =>
      rw [List.max?_eq_none_iff, List.map_eq_nil_iff] at hm
      exact absurd hm h
    | some a => simp [maxDate, hm]
  rw [dailyAggregate, asfreqD, hmin, hmax]
  refine List.map_congr_left (fun i _ => ?_)
  rw [groupSumByDate, lookup_graph (sumVolOn df) (observedDates df) (minDate df + i)]
  by_cases hmem : minDate df + i ∈ observedDates df
  · simp [hmem]
  · have hz : sumVolOn df (minDate df + i) = 0 := by
      refine sumVolOn_eq_zero (fun r hr hrd => ?_)
      exact hmem (mem_observedDates.mpr ⟨r, hr, hrd⟩)
    simp [hmem, hz]

theorem dailyAggregate_length {df : List Row} (h : df ≠ []) :
    (dailyAggregate df).length = maxDate df + 1 - minDate df := by
  rw [dailyAggregate_eq h]
  simp

theorem dailyAggregate_fst {df : List Row} (h : df ≠ []) :
    (dailyAggregate df).map Prod.fst
      = List.range' (minDate df) (maxDate df + 1 - minDate df) := by
  rw [dailyAggregate_eq h, List.map_map, List.range'_eq_map_range]
  exact List.map_congr_left (fun i _ => rfl)

theorem dailyAggregate_lastDate {df : List Row} (h : df ≠ []) :
    ((dailyAggregate df).map Prod.fst).getLastD 0 = maxDate df := by
  have hle := minDate_le_maxDate h
  rw [dailyAggregate_fst h, List.getLastD_eq_getLast?, List.getLast?_eq_getElem?,
    List.range'_eq_map_range]
  have hlen : ((List.range (maxDate df + 1 - minDate df)).map
      (fun x => minDate df + x)).length = maxDate df + 1 - minDate df := by simp
  rw [hlen, List.getElem?_map, List.getElem?_range (by omega)]
  simp
  omega

theorem hwForecast_length (p : HWParams) (xs : List ℚ) (h : ℕ) :
    (hwForecast p xs h).length = h := by
  simp [hwForecast]

theorem tagged_filter_self (l : List (ℕ × ℚ)) (t : String) :
    (l.map (fun q => (q.1, q.2, t))).filter (fun x => x.2.2 == t)
      = l.map (fun q => (q.1, q.2, t)) := by
  refine List.filter_eq_self.mpr (fun a ha => ?_)
  obtain ⟨q, _, rfl⟩ := List.mem_map.mp ha
  simp

theorem tagged_filter_nil (l : List (ℕ × ℚ)) {t1 t2 : String} (h : t1 ≠ t2) :
    (l.map (fun q => (q.1, q.2, t1))).filter (fun x => x.2.2 == t2) = [] := by
  refine List.filter_eq_nil_iff.mpr (fun a ha => ?_)
  obtain ⟨q, _, rfl⟩ := List.mem_map.mp ha
  simpa using h

theorem tagged_map_proj (l : List (ℕ × ℚ)) (t : String) :
    ((l.map (fun q => (q.1, q.2, t))).map (fun x => (x.1, x.2.1))) = l := by
  rw [List.map_map]
  exact (List.map_congr_left (fun a _ => rfl)).trans (List.map_id _)

theorem tagged_map_fst (l : List (ℕ × ℚ)) (t : String) :
    ((l.map (fun q => (q.1, q.2, t))).map (fun x => x.1)) = l.map Prod.fst := by
  rw [List.map_map]
  exact List.map_congr_left (fun a _ => rfl)

/-- C1: a transaction table whose continuous daily calendar between the
minimum and the maximum observed date has fewer than 30 days makes
`make_forecast` return no forecast together with the explicit
insufficient-data message of line 49, without raising. -/
theorem spec_C1 (p : HWParams) (df : List Row) (periods : ℕ)
    (h : maxDate df + 1 - minDate df < 30) :
    makeForecast p df periods = .error "Для прогноза требуется минимум 30 дней данных" := by
  have hlt : (dailyAggregate df).length < 30 := by
    by_cases hne : df = []
    · subst hne
      simp [dailyAggregate_nil]
    · rw [dailyAggregate_length hne]
      exact h
  simp only [makeForecast]
  rw [if_pos hlt]

theorem spec_C1_witness :
    maxDate exC1 + 1 - minDate exC1 < 30 ∧
      makeForecast hwHalf exC1 7 = .error "Для прогноза требуется минимум 30 дней данных" :=
  ⟨by decide, spec_C1 hwHalf exC1 7 (by decide)⟩

/-- C3: for a non-empty table, the daily aggregation step yields a series
whose index is exactly the calendar days from the minimum to the maximum
observed date (each exactly once), whose values are the per-day volume sums,
and whose transaction-free days are filled with zero. -/
theorem spec_C3 (df : List Row) (h : df ≠ []) :
    ((dailyAggregate df).map Prod.fst
        = List.range' (minDate df) (maxDate df + 1 - minDate df)) ∧
    (∀ d, minDate df ≤ d → d ≤ maxDate df →
        ((dailyAggregate df).map Prod.fst).count d = 1) ∧
    (∀ q ∈ dailyAggregate df, q.2 = sumVolOn df q.1) ∧
    (∀ q ∈ dailyAggregate df, (∀ r ∈ df, r.date ≠ q.1) → q.2 = 0) := by
  have hval : ∀ q ∈ dailyAggregate df, q.2 = sumVolOn df q.1 := by
    intro q hq
    rw [dailyAggregate_eq h] at hq
    obtain ⟨i, _, rfl⟩ := List.mem_map.mp hq
    rfl
  refine ⟨dailyAggregate_fst h, ?_, hval, fun q hq hn => ?_⟩
  · intro d h1 h2
    rw [dailyAggregate_fst h]
    refine List.count_eq_one_of_mem (List.nodup_range' _ _) ?_
    rw [List.mem_range']
    exact ⟨d - minDate df, by omega, by omega⟩
  · rw [hval q hq]
    exact sumVolOn_eq_zero hn

theorem spec_C3_witness :
    exC3 ≠ [] ∧ (dailyAggregate exC3).map Prod.fst
      = List.range' (minDate exC3) (maxDate exC3 + 1 - minDate exC3) :=
  ⟨by decide, (spec_C3 exC3 (by decide)).1⟩

/-- C2: with at least 30 days between the minimum and maximum observed date
(inclusive), `make_forecast` succeeds for every horizon `N` and every fitted
parameter set, and the combined series contains the whole daily aggregate
tagged `'Факт'` (in particular every historical calendar day), exactly `N`
points tagged `'Прогноз'`, and the forecast dates are the `N` consecutive
calendar days starting the day after the last actual date. -/
theorem spec_C2 (p : HWParams) (df : List Row) (N : ℕ)
    (h : 30 ≤ maxDate df + 1 - minDate df) :
    ∃ s, makeForecast p df N = .ok s ∧
      (s.filter (fun x => x.2.2 == "Факт")).map (fun x => (x.1, x.2.1))
          = dailyAggregate df ∧
      (∀ d, minDate df ≤ d → d ≤ maxDate df → ∃ v, (d, v, "Факт") ∈ s) ∧
      (s.filter (fun x => x.2.2 == "Прогноз")).length = N ∧
      (s.filter (fun x => x.2.2 == "Прогноз")).map (fun x => x.1)
          = (List.range N).map (fun i => maxDate df + 1 + i) := by
  have hne : df ≠ [] := by
    intro hnil
    subst hnil
    simp [minDate, maxDate] at h
  have hlen : (dailyAggregate df).length = maxDate df + 1 - minDate df :=
    dailyAggregate_length hne
  have h30 : ¬ ((dailyAggregate df).length < 30) := by omega
  have hfc : (hwForecast p ((dailyAggregate df).map (fun q => q.2)) N).length = N :=
    hwForecast_length _ _ _
  have hfutlen : ((List.range N).map
      (fun i => ((dailyAggregate df).map Prod.fst).getLastD 0 + 1 + i)).length = N := by
    simp
  have hziplen : (((List.range N).map
          (fun i => ((dailyAggregate df).map Prod.fst).getLastD 0 + 1 + i)).zip
        (hwForecast p ((dailyAggregate df).map (fun q => q.2)) N)).length = N := by
    rw [List.length_zip, hfutlen, hfc, min_self]
  refine ⟨(dailyAggregate df).map (fun q => (q.1, q.2, "Факт"))
      ++ (((List.range N).map
            (fun i => ((dailyAggregate df).map Prod.fst).getLastD 0 + 1 + i)).zip
          (hwForecast p ((dailyAggregate df).map (fun q => q.2)) N)).map
        (fun q => (q.1, q.2, "Прогноз")), ?_, ?_, ?_, ?_, ?_⟩
  · simp only [makeForecast]
    rw [if_neg h30]
  · rw [List.filter_append, tagged_filter_self, tagged_filter_nil _ (by decide),
      List.append_nil, tagged_map_proj]
  · intro d h1 h2
    have hmem : (d, sumVolOn df d) ∈ dailyAggregate df := by
      rw [dailyAggregate_eq hne]
      refine List.mem_map.mpr ⟨d - minDate df, ?_, ?_⟩
      · rw [List.mem_range]
        omega
      · have : minDate df + (d - minDate df) = d := by omega
        rw [this]
    refine ⟨sumVolOn df d, List.mem_append_left _ ?_⟩
    exact List.mem_map.mpr ⟨(d, sumVolOn df d), hmem, rfl⟩
  · rw [List.filter_append, tagged_filter_nil _ (by decide), tagged_filter_self,
      List.nil_append, List.length_map]
    exact hziplen
  · rw [List.filter_append, tagged_filter_nil _ (by decide), tagged_filter_self,
      List.nil_append, tagged_map_fst, List.map_fst_zip _ _ (by rw [hfutlen, hfc]),
      dailyAggregate_lastDate hne]

theorem spec_C2_witness :
    30 ≤ maxDate exC2 + 1 - minDate exC2 ∧
      ∃ s, makeForecast hwHalf exC2 7 = .ok s ∧
        (s.filter (fun x => x.2.2 == "Факт")).map (fun x => (x.1, x.2.1))
            = dailyAggregate exC2 ∧
        (∀ d, minDate exC2 ≤ d → d ≤ maxDate exC2 → ∃ v, (d, v, "Факт") ∈ s) ∧
        (s.filter (fun x => x.2.2 == "Прогноз")).length = 7 ∧
        (s.filter (fun x => x.2.2 == "Прогноз")).map (fun x => x.1)
            = (List.range 7).map (fun i => maxDate exC2 + 1 + i) :=
  ⟨by decide, spec_C2 hwHalf exC2 7 (by decide)⟩

theorem productCheck_no_seasonality (df : List Row) (b w : ℕ) :
    Recommendation.seasonality b w ∉ productCheck df := by
  rw [productCheck]
  split <;> simp

theorem customerCheck_no_seasonality (df : List Row) (b w : ℕ) :
    Recommendation.seasonality b w ∉ customerCheck df := by
  rw [customerCheck]
  split <;> simp

theorem locationCheck_no_seasonality (df : List Row) (b w : ℕ) :
    Recommendation.seasonality b w ∉ locationCheck df := by
  rw [locationCheck]
  split <;> simp

theorem dynamicsCheck_no_seasonality (monthOf : ℕ → ℕ) (df : List Row) (b w : ℕ) :
    Recommendation.seasonality b w ∉ dynamicsCheck monthOf df := by
  rw [dynamicsCheck]
  split <;> simp

theorem elasticityCheck_no_seasonality (corrVal : List (ℚ × ℚ) → ℚ) (df : List Row)
    (b w : ℕ) : Recommendation.seasonality b w ∉ elasticityCheck corrVal df := by
  simp only [elasticityCheck]
  split
  · simp
  · split
    · simp
    · split <;> simp

theorem lostRevenueCheck_no_seasonality (df : List Row) (b w : ℕ) :
    Recommendation.seasonality b w ∉ lostRevenueCheck df := by
  rw [lostRevenueCheck]
  split <;> simp

theorem gen_warnings (monthOf : ℕ → ℕ) (corrVal : List (ℚ × ℚ) → ℚ) (df : List Row) :
    (generateRecommendations monthOf corrVal df).2 = (seasonCheck df).2 := rfl

theorem mem_gen_seasonality_iff (monthOf : ℕ → ℕ) (corrVal : List (ℚ × ℚ) → ℚ)
    (df : List Row) (b w : ℕ) :
    Recommendation.seasonality b w ∈ (generateRecommendations monthOf corrVal df).1
      ↔ Recommendation.seasonality b w ∈ (seasonCheck df).1 := by
  simp only [generateRecommendations]
  split
  · rename_i hempty
    rw [List.isEmpty_iff] at hempty
    simp only [List.append_eq_nil] at hempty
    rw [hempty.1.1.1.1.1.1]
    simp
  · simp only [List.mem_append]
    constructor
    · rintro ((((((hm | hm) | hm) | hm) | hm) | hm) | hm)
      · exact hm
      · exact absurd hm (productCheck_no_seasonality df b w)
      · exact absurd hm (customerCheck_no_seasonality df b w)
      · exact absurd hm (locationCheck_no_seasonality df b w)
      · exact absurd hm (dynamicsCheck_no_seasonality monthOf df b w)
      · exact absurd hm (elasticityCheck_no_seasonality corrVal df b w)
      · exact absurd hm (lostRevenueCheck_no_seasonality df b w)
    · intro hm
      exact Or.inl (Or.inl (Or.inl (Or.inl (Or.inl (Or.inl hm)))))

theorem seasonCheck_err {df : List Row} (h : (observedDates df).length < 14) :
    seasonCheck df = ([],
      ["Ошибка анализа сезонности: x must have 2 complete cycles requires 14 observations"]) := by
  have hl : (dailyVals df).length < 14 := by simpa [dailyVals] using h
  simp [seasonCheck, seasonalDecompose7, hl]

theorem seasonCheck_ok {df : List Row} (h : 14 ≤ (observedDates df).length) :
    seasonCheck df = (if seasonalStrongB df
        then [Recommendation.seasonality (bestWeekday df) (worstWeekday df)]
        else [], []) := by
  have hl : ¬ ((dailyVals df).length < 14) := by
    simp only [dailyVals, List.length_map]
    omega
  have hde : seasonalDecompose7 (dailyVals df) = .ok (seasonalOf df) := by
    cases hd : seasonalDecompose7 (dailyVals df) with
    | error e =>
      exfalso
      simp [seasonalDecompose7, hl] at hd
    | ok s => simp [seasonalOf, hd, Except.toOption]
  simp only [seasonCheck, hde]
  have hssb : stdGtB (sampleVar (seasonalOf df)) (listMean (dailyVals df) * (1 / 10))
      = seasonalStrongB df := rfl
  rw [hssb]
  cases seasonalStrongB df <;> simp

/-- C5 counterexample: on a two-day table the seasonality check fails
(decomposition needs two full weekly cycles) and the failure IS surfaced to
the user — `st.warning` at line 106 — contradicting "silently skipped and
never surfaced". -/
theorem spec_C5_counterexample :
    (generateRecommendations monthByThirty corrZero exC5).2
        = ["Ошибка анализа сезонности: x must have 2 complete cycles requires 14 observations"]
      ∧ (generateRecommendations monthByThirty corrZero exC5).2 ≠ [] := by
  have h2 : (generateRecommendations monthByThirty corrZero exC5).2
      = ["Ошибка анализа сезонности: x must have 2 complete cycles requires 14 observations"] := by
    rw [gen_warnings, seasonCheck_err (by decide)]
  exact ⟨h2, by rw [h2]; simp⟩

/-- C5 (amended): when the seasonality check fails, its failure is surfaced
to the user as a warning (not silently skipped); the failing check is omitted
from the output and all remaining checks still run.  (The dynamics and
elasticity checks, by contrast, are wrapped in `except: pass` and would be
skipped silently.) -/
theorem spec_C5_amended (monthOf : ℕ → ℕ) (corrVal : List (ℚ × ℚ) → ℚ)
    (df : List Row) (h : (observedDates df).length < 14) :
    (generateRecommendations monthOf corrVal df).2
        = ["Ошибка анализа сезонности: x must have 2 complete cycles requires 14 observations"]
      ∧ (∀ b w, Recommendation.seasonality b w
          ∉ (generateRecommendations monthOf corrVal df).1)
      ∧ (generateRecommendations monthOf corrVal df).1
        = (if (productCheck df ++ customerCheck df ++ locationCheck df
              ++ dynamicsCheck monthOf df ++ elasticityCheck corrVal df
              ++ lostRevenueCheck df).isEmpty
           then [Recommendation.fallback]
           else productCheck df ++ customerCheck df ++ locationCheck df
              ++ dynamicsCheck monthOf df ++ elasticityCheck corrVal df
              ++ lostRevenueCheck df) := by
  have hsc := seasonCheck_err h
  refine ⟨by rw [gen_warnings, hsc], ?_, ?_⟩
  · intro b w hm
    rw [mem_gen_seasonality_iff] at hm
    rw [hsc] at hm
    exact absurd hm (List.not_mem_nil _)
  · simp only [generateRecommendations, hsc, List.nil_append]

theorem spec_C5_amended_witness :
    (observedDates exC5).length < 14 ∧
      (generateRecommendations monthByThirty corrZero exC5).2
        = ["Ошибка анализа сезонности: x must have 2 complete cycles requires 14 observations"] :=
  ⟨by decide, (spec_C5_amended monthByThirty corrZero exC5 (by decide)).1⟩

theorem exC8alt_observed : observedDates exC8alt = [0,1,2,3,4,5,6,7,8,9,10,11,12,13] := by
  decide

theorem exC8alt_dailyVals :
    dailyVals exC8alt = [10, 11, 12, 13, 14, 100, 90, 10, 11, 12, 13, 14, 100, 90] := by
  rw [dailyVals, exC8alt_observed]
  norm_num [sumVolOn, exC8alt, mkRow]

theorem exC8alt_seasonal :
    seasonalOf exC8alt = [-180/7, -173/7, -166/7, -159/7, -152/7, 450/7, 380/7,
      -180/7, -173/7, -166/7, -159/7, -152/7, 450/7, 380/7] := by
  have h14 : List.range 14 = [0,1,2,3,4,5,6,7,8,9,10,11,12,13] := by decide
  have h7 : List.range 7 = [0,1,2,3,4,5,6] := by decide
  rw [seasonalOf, exC8alt_dailyVals]
  norm_num [seasonalDecompose7, h14, h7, listMean, Except.toOption, List.getD]

theorem exC8alt_strong : seasonalStrongB exC8alt = true := by
  rw [seasonalStrongB, exC8alt_seasonal, exC8alt_dailyVals]
  norm_num [stdGtB, sampleVar, listMean]

theorem exC8alt_best : bestWeekday exC8alt = 5 := by
  have hk : weekdayKeys exC8alt = [0,1,2,3,4,5,6] := by decide
  rw [bestWeekday, hk]
  norm_num [argmaxBy, weekdayVol, exC8alt, mkRow]

theorem exC8alt_worst : worstWeekday exC8alt = 0 := by
  have hk : weekdayKeys exC8alt = [0,1,2,3,4,5,6] := by decide
  rw [worstWeekday, hk]
  norm_num [argminBy, weekdayVol, exC8alt, mkRow]

theorem exC8const_not_strong : seasonalStrongB exC8const = false := by
  have hobs : observedDates exC8const = [0,1,2,3,4,5,6,7,8,9,10,11,12,13] := by decide
  have hdv : dailyVals exC8const
      = [50, 50, 50, 50, 50, 50, 50, 50, 50, 50, 50, 50, 50, 50] := by
    rw [dailyVals, hobs]
    norm_num [sumVolOn, exC8const, mkRow]
  have h14 : List.range 14 = [0,1,2,3,4,5,6,7,8,9,10,11,12,13] := by decide
  have h7 : List.range 7 = [0,1,2,3,4,5,6] := by decide
  have hs : seasonalOf exC8const = [0, 0, 0, 0, 0, 0, 0, 0, 0, 0, 0, 0, 0, 0] := by
    rw [seasonalOf, hdv]
    norm_num [seasonalDecompose7, h14, h7, listMean, Except.toOption, List.getD]
  rw [seasonalStrongB, hs, hdv]
  norm_num [stdGtB, sampleVar, listMean]

/-- C8: when the daily series has at least two full weekly cycles, the
seasonality observation is emitted if and only if the sample standard
deviation of the seasonal component of the period-7 decomposition exceeds 10%
of the series mean, and the emitted observation names the strongest and
weakest weekday by total volume; on the 14-day constant series nothing is
emitted, and on the alternating weekday/weekend series the observation naming
weekday 5 strongest (total 200) and weekday 0 weakest (total 20) is
emitted. -/
theorem spec_C8 (monthOf : ℕ → ℕ) (corrVal : List (ℚ × ℚ) → ℚ) (df : List Row)
    (h : 14 ≤ (observedDates df).length) :
    ((∃ b w, Recommendation.seasonality b w
          ∈ (generateRecommendations monthOf corrVal df).1)
        ↔ seasonalStrongB df = true) ∧
    (seasonalStrongB df = true →
        Recommendation.seasonality (bestWeekday df) (worstWeekday df)
          ∈ (generateRecommendations monthOf corrVal df).1) ∧
    (∀ b w, Recommendation.seasonality b w
        ∉ (generateRecommendations monthOf corrVal exC8const).1) ∧
    (Recommendation.seasonality 5 0
        ∈ (generateRecommendations monthOf corrVal exC8alt).1) := by
  have hok := seasonCheck_ok h
  refine ⟨?_, ?_, ?_, ?_⟩
  · constructor
    · rintro ⟨b, w, hm⟩
      rw [mem_gen_seasonality_iff, hok] at hm
      by_cases hs : seasonalStrongB df = true
      · exact hs
      · rw [if_neg hs] at hm
        exact absurd hm (List.not_mem_nil _)
    · intro hs
      refine ⟨bestWeekday df, worstWeekday df, ?_⟩
      rw [mem_gen_seasonality_iff, hok, if_pos hs]
      simp
  · intro hs
    rw [mem_gen_seasonality_iff, hok, if_pos hs]
    simp
  · intro b w hm
    rw [mem_gen_seasonality_iff, seasonCheck_ok (by decide), exC8const_not_strong] at hm
    simp at hm
  · rw [mem_gen_seasonality_iff, seasonCheck_ok (by decide), if_pos exC8alt_strong,
      exC8alt_best, exC8alt_worst]
    simp

theorem spec_C8_witness :
    14 ≤ (observedDates exC8alt).length ∧
      Recommendation.seasonality 5 0
        ∈ (generateRecommendations monthByThirty corrZero exC8alt).1 :=
  ⟨by decide, (spec_C8 monthByThirty corrZero exC8alt (by decide)).2.2.2⟩

theorem observedDates_single (r : Row) : observedDates [r] = [r.date] := by
  simp [observedDates]

theorem productKeys_single (r : Row) : productKeys [r] = [r.product] := by
  simp [productKeys]

theorem rowsOfProduct_single (r : Row) : rowsOfProduct [r] r.product = [r] := by
  simp [rowsOfProduct]

theorem productStat_single (r : Row) :
    productStat [r] r.product = (r.product, r.volume, r.revenue, r.price) := by
  rw [productStat, rowsOfProduct_single]
  simp [listMean]

theorem productAnalysis_single (r : Row) :
    productAnalysis [r] = [(r.product, r.volume, r.revenue, r.price)] := by
  rw [productAnalysis, productKeys_single]
  simp [List.insertionSort, List.orderedInsert, productStat_single]

theorem productCheck_single (r : Row) : productCheck [r]
    = [Recommendation.topProducts [(r.product, r.volume, r.revenue, r.price)]
        [(r.product, r.volume)]] := by
  rw [productCheck, productAnalysis_single]
  simp

theorem customerCheck_single (r : Row) : customerCheck [r] = [] := by
  simp [customerCheck, customerKeys]

theorem locationCheck_single (r : Row) : locationCheck [r] = [] := by
  simp [locationCheck, locationKeys]

theorem dynamicsCheck_single (monthOf : ℕ → ℕ) (r : Row) :
    dynamicsCheck monthOf [r] = [] := by
  have hm : monthlyRevenue monthOf [r] = [r.revenue] := by
    simp only [monthlyRevenue, List.map_cons, List.map_nil, List.min?, List.max?, List.foldl]
    have h1 : monthOf r.date + 1 - monthOf r.date = 1 := by omega
    rw [h1]
    have h2 : List.range 1 = [0] := by decide
    rw [h2]
    simp
  simp [dynamicsCheck, hm]

theorem elasticityCheck_single (corrVal : List (ℚ × ℚ) → ℚ) (r : Row) :
    elasticityCheck corrVal [r] = [] := by
  simp [elasticityCheck, productKeys_single, rowsOfProduct_single, corrGuard]

theorem lostRevenueCheck_single (r : Row) : lostRevenueCheck [r]
    = (if r.volume = 0 then [Recommendation.lostRevenue 1 0] else []) := by
  by_cases hr : r.volume = 0
  · rw [if_pos hr]
    simp [lostRevenueCheck, hr, listMean]
  · rw [if_neg hr]
    simp [lostRevenueCheck, hr]

theorem gen_empty (monthOf : ℕ → ℕ) (corrVal : List (ℚ × ℚ) → ℚ) :
    (generateRecommendations monthOf corrVal []).1 = [Recommendation.fallback] := rfl

theorem gen_single (monthOf : ℕ → ℕ) (corrVal : List (ℚ × ℚ) → ℚ) (r : Row) :
    (generateRecommendations monthOf corrVal [r]).1
      = Recommendation.topProducts [(r.product, r.volume, r.revenue, r.price)]
          [(r.product, r.volume)]
        :: (if r.volume = 0 then [Recommendation.lostRevenue 1 0] else []) := by
  have hsc := @seasonCheck_err [r] (by rw [observedDates_single]; norm_num)
  simp only [generateRecommendations, hsc, productCheck_single, customerCheck_single,
    locationCheck_single, dynamicsCheck_single, elasticityCheck_single,
    lostRevenueCheck_single, List.nil_append, List.append_nil]
  by_cases hr : r.volume = 0 <;> simp [hr]

/-- C6 counterexample: on the single-row table `exC6` the engine does NOT
return the fallback message — the top-products check fires on one product
(its `len > 0` guard passes), so the output is the top-products observation,
refuting "returns exactly one element: the fallback insufficient-data
message" for single-row tables. -/
theorem spec_C6_counterexample :
    (generateRecommendations monthByThirty corrZero exC6).1
        = [Recommendation.topProducts [("P", 5, 10, 2)] [("P", 5)]] ∧
      (generateRecommendations monthByThirty corrZero exC6).1
        ≠ [Recommendation.fallback] := by
  have h := gen_single monthByThirty corrZero (mkRow 0 5 "P" "L" 2 "B")
  constructor
  · rw [show exC6 = [mkRow 0 5 "P" "L" 2 "B"] from rfl, h]
    norm_num [mkRow]
  · rw [show exC6 = [mkRow 0 5 "P" "L" 2 "B"] from rfl, h]
    simp

/-- C6 (amended): on an empty table `generate_recommendations` returns
exactly the fallback insufficient-data message and does not raise; on a
single-row table it does not raise either, but returns the top-products
observation for the single product (plus a lost-revenue observation when the
row's volume is zero) instead of the fallback. -/
theorem spec_C6_amended (monthOf : ℕ → ℕ) (corrVal : List (ℚ × ℚ) → ℚ) :
    ((generateRecommendations monthOf corrVal []).1 = [Recommendation.fallback]) ∧
    (∀ r : Row, (generateRecommendations monthOf corrVal [r]).1
        = Recommendation.topProducts [(r.product, r.volume, r.revenue, r.price)]
            [(r.product, r.volume)]
          :: (if r.volume = 0 then [Recommendation.lostRevenue 1 0] else [])) ∧
    (∀ r : Row, (generateRecommendations monthOf corrVal [r]).1
        ≠ [Recommendation.fallback]) :=
  ⟨gen_empty monthOf corrVal, gen_single monthOf corrVal,
    fun r => by rw [gen_single]; simp⟩

theorem exC4_productAnalysis : productAnalysis exC4
    = [("B", 50, 5000, 100), ("A", 100, 1000, 10), ("C", 200, 200, 1)] := by
  have hkeys : productKeys exC4 = ["A", "B", "C"] := by decide
  have hBA : (decide (("B":String) = "A")) = false := by decide
  have hCA : (decide (("C":String) = "A")) = false := by decide
  have hAB : (decide (("A":String) = "B")) = false := by decide
  have hCB : (decide (("C":String) = "B")) = false := by decide
  have hAC : (decide (("A":String) = "C")) = false := by decide
  have hBC : (decide (("B":String) = "C")) = false := by decide
  rw [productAnalysis, hkeys]
  norm_num [exC4, mkRow, productStat, rowsOfProduct, listMean,
    List.insertionSort, List.orderedInsert, revDescRel,
    hBA, hCA, hAB, hCB, hAC, hBC]

theorem exC4eq_productAnalysis : productAnalysis exC4eq
    = [("C", 200, 200, 1), ("A", 100, 100, 1), ("B", 50, 50, 1)] := by
  have hkeys : productKeys exC4eq = ["A", "B", "C"] := by decide
  have hBA : (decide (("B":String) = "A")) = false := by decide
  have hCA : (decide (("C":String) = "A")) = false := by decide
  have hAB : (decide (("A":String) = "B")) = false := by decide
  have hCB : (decide (("C":String) = "B")) = false := by decide
  have hAC : (decide (("A":String) = "C")) = false := by decide
  have hBC : (decide (("B":String) = "C")) = false := by decide
  rw [productAnalysis, hkeys]
  norm_num [exC4eq, mkRow, productStat, rowsOfProduct, listMean,
    List.insertionSort, List.orderedInsert, revDescRel,
    hBA, hCA, hAB, hCB, hAC, hBC]

theorem exC4w_productAnalysis : productAnalysis exC4w
    = [("C", 200, 200, 1), ("A", 100, 100, 1), ("B", 50, 50, 1), ("D", 1, 1, 1)] := by
  have hkeys : productKeys exC4w = ["A", "B", "C", "D"] := by decide
  have hBA : (decide (("B":String) = "A")) = false := by decide
  have hCA : (decide (("C":String) = "A")) = false := by decide
  have hDA : (decide (("D":String) = "A")) = false := by decide
  have hAB : (decide (("A":String) = "B")) = false := by decide
  have hCB : (decide (("C":String) = "B")) = false := by decide
  have hDB : (decide (("D":String) = "B")) = false := by decide
  have hAC : (decide (("A":String) = "C")) = false := by decide
  have hBC : (decide (("B":String) = "C")) = false := by decide
  have hDC : (decide (("D":String) = "C")) = false := by decide
  have hAD : (decide (("A":String) = "D")) = false := by decide
  have hBD : (decide (("B":String) = "D")) = false := by decide
  have hCD : (decide (("C":String) = "D")) = false := by decide
  rw [productAnalysis, hkeys]
  norm_num [exC4w, mkRow, productStat, rowsOfProduct, listMean,
    List.insertionSort, List.orderedInsert, revDescRel,
    hBA, hCA, hDA, hAB, hCB, hDB, hAC, hBC, hDC, hAD, hBD, hCD]

theorem mem_gen_of_mem_productCheck (monthOf : ℕ → ℕ) (corrVal : List (ℚ × ℚ) → ℚ)
    (df : List Row) (x : Recommendation) (hx : x ∈ productCheck df) :
    x ∈ (generateRecommendations monthOf corrVal df).1 := by
  have hmem : x ∈ (seasonCheck df).1 ++ productCheck df ++ customerCheck df
      ++ locationCheck df ++ dynamicsCheck monthOf df ++ elasticityCheck corrVal df
      ++ lostRevenueCheck df := by
    simp only [List.mem_append]
    exact Or.inl (Or.inl (Or.inl (Or.inl (Or.inl (Or.inr hx)))))
  simp only [generateRecommendations]
  split
  · rename_i hempty
    rw [List.isEmpty_iff] at hempty
    rw [hempty] at hmem
    exact absurd hmem (List.not_mem_nil _)
  · exact hmem

/-- C4 counterexample: `exC4` has products A (100 units), B (50 units),
C (200 units), but the emitted top-3 ranking is `["B", "A", "C"]`, not the
volume-descending `["C", "A", "B"]` — the source sorts `product_analysis` by
`Выручка` (revenue, line 113), not by volume. -/
theorem spec_C4_counterexample :
    productVolume exC4 "A" = 100 ∧ productVolume exC4 "B" = 50
      ∧ productVolume exC4 "C" = 200
      ∧ Recommendation.topProducts
          [("B", 50, 5000, 100), ("A", 100, 1000, 10), ("C", 200, 200, 1)]
          [("B", 50), ("A", 100), ("C", 200)]
        ∈ (generateRecommendations monthByThirty corrZero exC4).1
      ∧ topProductNames exC4 = ["B", "A", "C"]
      ∧ topProductNames exC4 ≠ ["C", "A", "B"] := by
  have hBA : (decide (("B":String) = "A")) = false := by decide
  have hCA : (decide (("C":String) = "A")) = false := by decide
  have hAB : (decide (("A":String) = "B")) = false := by decide
  have hCB : (decide (("C":String) = "B")) = false := by decide
  have hAC : (decide (("A":String) = "C")) = false := by decide
  have hBC : (decide (("B":String) = "C")) = false := by decide
  have hnames : topProductNames exC4 = ["B", "A", "C"] := by
    rw [topProductNames, topProducts3, exC4_productAnalysis]
    simp
  refine ⟨?_, ?_, ?_, ?_, hnames, by rw [hnames]; decide⟩
  · norm_num [productVolume, rowsOfProduct, exC4, mkRow, hBA, hCA]
  · norm_num [productVolume, rowsOfProduct, exC4, mkRow, hAB, hCB]
  · norm_num [productVolume, rowsOfProduct, exC4, mkRow, hAC, hBC]
  · refine mem_gen_of_mem_productCheck _ _ _ _ ?_
    rw [productCheck, exC4_productAnalysis]
    simp

/-- C4 (amended): the top-products check ranks products by total REVENUE in
descending order and emits the top 3 — every emitted product has revenue at
least that of every non-emitted product and the emitted list is
revenue-sorted; in particular, on the dataset with products A (100 units),
B (50), C (200) at EQUAL unit prices the emitted ranking is `["C", "A", "B"]`. -/
theorem spec_C4_amended (df : List Row) (x y : String × ℚ × ℚ × ℚ)
    (hy : y ∈ productAnalysis df) (hyn : y ∉ topProducts3 df)
    (hx : x ∈ topProducts3 df) :
    y.2.2.1 ≤ x.2.2.1 ∧ List.Sorted revDescRel (topProducts3 df)
      ∧ topProductNames exC4eq = ["C", "A", "B"] := by
  have hsorted : List.Sorted revDescRel (productAnalysis df) :=
    List.sorted_insertionSort revDescRel _
  have hnames : topProductNames exC4eq = ["C", "A", "B"] := by
    rw [topProductNames, topProducts3, exC4eq_productAnalysis]
    simp
  refine ⟨?_, ?_, hnames⟩
  · have hsplit := List.take_append_drop 3 (productAnalysis df)
    have hpw : List.Pairwise revDescRel
        ((productAnalysis df).take 3 ++ (productAnalysis df).drop 3) := by
      rw [hsplit]
      exact hsorted
    obtain ⟨_, _, hcross⟩ := List.pairwise_append.mp hpw
    have hydrop : y ∈ (productAnalysis df).drop 3 := by
      have hy2 : y ∈ (productAnalysis df).take 3 ++ (productAnalysis df).drop 3 := by
        rw [hsplit]
        exact hy
      rcases List.mem_append.mp hy2 with hcase | hcase
      · exact absurd hcase (by rw [topProducts3] at hyn; exact hyn)
      · exact hcase
    exact hcross x (by rw [topProducts3] at hx; exact hx) y hydrop
  · rw [topProducts3]
    exact List.Pairwise.sublist (List.take_sublist 3 _) hsorted

theorem spec_C4_amended_witness :
    (("D", (1:ℚ), (1:ℚ), (1:ℚ)) ∈ productAnalysis exC4w) ∧
      (("D", (1:ℚ), (1:ℚ), (1:ℚ)) ∉ topProducts3 exC4w) ∧
      (("C", (200:ℚ), (200:ℚ), (1:ℚ)) ∈ topProducts3 exC4w) ∧
      (("D", (1:ℚ), (1:ℚ), (1:ℚ)).2.2.1 ≤ (("C", (200:ℚ), (200:ℚ), (1:ℚ))).2.2.1 ∧
        List.Sorted revDescRel (topProducts3 exC4w)
        ∧ topProductNames exC4eq = ["C", "A", "B"]) := by
  have hpa := exC4w_productAnalysis
  have h1 : ("D", (1:ℚ), (1:ℚ), (1:ℚ)) ∈ productAnalysis exC4w := by
    rw [hpa]
    simp
  have h2 : ("D", (1:ℚ), (1:ℚ), (1:ℚ)) ∉ topProducts3 exC4w := by
    rw [topProducts3, hpa]
    decide
  have h3 : ("C", (200:ℚ), (200:ℚ), (1:ℚ)) ∈ topProducts3 exC4w := by
    rw [topProducts3, hpa]
    simp
  exact ⟨h1, h2, h3, spec_C4_amended exC4w _ _ h1 h2 h3⟩

/-- C7: whenever loading succeeds, every loaded row's derived revenue column
equals its volume times its unit price, and the total-revenue KPI of
`create_pdf_report` (line 241) equals the sum of per-row volume × price. -/
theorem spec_C7 (file : Except String RawTable) (df : List Row)
    (h : loadAndAnalyzeData file = (none, some df)) :
    (∀ r ∈ df, r.revenue = r.volume * r.price) ∧
      (pdfKpis df).2.1 = (df.map (fun r => r.volume * r.price)).sum := by
  cases file with
  | error e => simp [loadAndAnalyzeData] at h
  | ok t =>
    simp only [loadAndAnalyzeData] at h
    by_cases hm : (requiredColumns.filter (fun c => decide (c ∉ t.columns))).isEmpty
    · rw [if_pos hm] at h
      simp only [Prod.mk.injEq, Option.some.injEq] at h
      have hdf : df = t.rows.map addRevenue := h.2.symm
      subst hdf
      constructor
      · intro r hr
        obtain ⟨raw, _, rfl⟩ := List.mem_map.mp hr
        rfl
      · simp only [pdfKpis, List.map_map]
        rfl
    · rw [if_neg hm] at h
      simp at h

theorem spec_C7_witness :
    loadAndAnalyzeData (Except.ok exGoodTable) = (none, some exGoodDf) ∧
      (∀ r ∈ exGoodDf, r.revenue = r.volume * r.price) ∧
      (pdfKpis exGoodDf).2.1 = (exGoodDf.map (fun r => r.volume * r.price)).sum := by
  have h : loadAndAnalyzeData (Except.ok exGoodTable) = (none, some exGoodDf) := rfl
  exact ⟨h, spec_C7 (Except.ok exGoodTable) exGoodDf h⟩

/-- C9: `load_and_analyze_data` always returns exactly one of an error
message (with no dataframe) or a loaded dataframe (with no error), and never
raises: a parse failure yields the generic `Ошибка загрузки` message, missing
required columns yield the message listing exactly the missing column names,
and otherwise the rows augmented with the revenue column are returned. -/
theorem spec_C9 (file : Except String RawTable) :
    ((∃ msg, loadAndAnalyzeData file = (some msg, none))
        ∨ (∃ df, loadAndAnalyzeData file = (none, some df))) ∧
      (∀ e, file = .error e →
        loadAndAnalyzeData file = (some ("Ошибка загрузки: " ++ e), none)) ∧
      (∀ t, file = .ok t →
        ¬ (requiredColumns.filter (fun c => decide (c ∉ t.columns))).isEmpty →
        loadAndAnalyzeData file = (some ("Отсутствуют колонки: "
          ++ String.intercalate ", "
            (requiredColumns.filter (fun c => decide (c ∉ t.columns)))), none)) ∧
      (∀ t, file = .ok t →
        (requiredColumns.filter (fun c => decide (c ∉ t.columns))).isEmpty →
        loadAndAnalyzeData file = (none, some (t.rows.map addRevenue))) := by
  cases file with
  | error e =>
    refine ⟨Or.inl ⟨"Ошибка загрузки: " ++ e, rfl⟩, ?_, ?_, ?_⟩
    · intro e2 he
      injection he with he2
      subst he2
      rfl
    · intro t ht
      exact absurd ht (by simp)
    · intro t ht
      exact absurd ht (by simp)
  | ok t =>
    by_cases hm : (requiredColumns.filter (fun c => decide (c ∉ t.columns))).isEmpty
    · refine ⟨Or.inr ⟨t.rows.map addRevenue, ?_⟩, ?_, ?_, ?_⟩
      · simp only [loadAndAnalyzeData]
        rw [if_pos hm]
      · intro e he
        exact absurd he (by simp)
      · intro t2 ht2 hne
        injection ht2 with ht3
        subst ht3
        exact absurd hm hne
      · intro t2 ht2 _
        injection ht2 with ht3
        subst ht3
        simp only [loadAndAnalyzeData]
        rw [if_pos hm]
    · refine ⟨Or.inl ⟨"Отсутствуют колонки: " ++ String.intercalate ", "
          (requiredColumns.filter (fun c => decide (c ∉ t.columns))), ?_⟩, ?_, ?_, ?_⟩
      · simp only [loadAndAnalyzeData]
        rw [if_neg hm]
      · intro e he
        exact absurd he (by simp)
      · intro t2 ht2 _
        injection ht2 with ht3
        subst ht3
        simp only [loadAndAnalyzeData]
        rw [if_neg hm]
      · intro t2 ht2 hyes
        injection ht2 with ht3
        subst ht3
        exact absurd hyes hm

theorem spec_C9_witness :
    loadAndAnalyzeData (Except.ok exBadTable)
        = (some ("Отсутствуют колонки: "
            ++ String.intercalate ", "
              (requiredColumns.filter (fun c => decide (c ∉ exBadTable.columns)))), none) ∧
      loadAndAnalyzeData (Except.error "bad file")
        = (some ("Ошибка загрузки: " ++ "bad file"), none) :=
  ⟨(spec_C9 (Except.ok exBadTable)).2.2.1 exBadTable rfl (by decide),
   (spec_C9 (Except.error "bad file")).2.1 "bad file" rfl⟩

theorem mem_gen_of_mem_lostRevenueCheck (monthOf : ℕ → ℕ)
    (corrVal : List (ℚ × ℚ) → ℚ) (df : List Row) (x : Recommendation)
    (hx : x ∈ lostRevenueCheck df) :
    x ∈ (generateRecommendations monthOf corrVal df).1 := by
  have hmem : x ∈ (seasonCheck df).1 ++ productCheck df ++ customerCheck df
      ++ locationCheck df ++ dynamicsCheck monthOf df ++ elasticityCheck corrVal df
      ++ lostRevenueCheck df := by
    simp only [List.mem_append]
    exact Or.inr hx
  simp only [generateRecommendations]
  split
  · rename_i hempty
    rw [List.isEmpty_iff] at hempty
    rw [hempty] at hmem
    exact absurd hmem (List.not_mem_nil _)
  · exact hmem

/-- C10: whenever the table contains a row with volume exactly zero, the
lost-revenue observation (check 7, lines 211-218) is emitted, reporting the
number of distinct dates among the zero-volume rows and estimating losses as
that count times the table-wide mean volume times the table-wide mean
price. -/
theorem spec_C10 (monthOf : ℕ → ℕ) (corrVal : List (ℚ × ℚ) → ℚ) (df : List Row)
    (h : ∃ r ∈ df, r.volume = 0) :
    Recommendation.lostRevenue (zeroSalesDays df)
        ((zeroSalesDays df : ℚ) * listMean (df.map (fun r => r.volume))
          * listMean (df.map (fun r => r.price)))
      ∈ (generateRecommendations monthOf corrVal df).1 := by
  refine mem_gen_of_mem_lostRevenueCheck _ _ _ _ ?_
  obtain ⟨r, hr, hrv⟩ := h
  have hmem : r ∈ df.filter (fun r => decide (r.volume = 0)) :=
    List.mem_filter.mpr ⟨hr, by simp [hrv]⟩
  have hne : ¬ (df.filter (fun r => decide (r.volume = 0))).isEmpty := by
    intro hempt
    rw [List.isEmpty_iff] at hempt
    rw [hempt] at hmem
    exact absurd hmem (List.not_mem_nil _)
  simp only [lostRevenueCheck]
  rw [if_neg hne]
  exact List.mem_singleton.mpr rfl

theorem spec_C10_witness :
    (∃ r ∈ exC10, r.volume = 0) ∧
      Recommendation.lostRevenue (zeroSalesDays exC10)
          ((zeroSalesDays exC10 : ℚ) * listMean (exC10.map (fun r => r.volume))
            * listMean (exC10.map (fun r => r.price)))
        ∈ (generateRecommendations monthByThirty corrZero exC10).1 :=
  ⟨by decide, spec_C10 monthByThirty corrZero exC10 (by decide)⟩
